import Mathlib

/-!
Verification of the SuperM supermarket-sales dashboard's
filter-and-aggregate pipeline (`src/app.py`).

The pipeline is embedded shallowly:
* a pandas row becomes a `Record`;
* the loaded `DataFrame` becomes a `List Record` (pandas preserves row
  order, so a list is the faithful model);
* calendar dates become `Nat` ordinals (only their total order and
  equality matter to the code);
* the money column `Sales` becomes `Rat` (exact decimal arithmetic);
* boolean-mask indexing `df[mask]` becomes `List.filter`;
* `Series.sum`, `Series.nunique`, `Series.mean` and
  `groupby("Order Date").sum()` become the list functions below;
* `Series.mean` of an empty frame is pandas `NaN`; the embedding returns
  `Option Rat` with `none` as the not-a-number sentinel.
-/

/-- One sales transaction row with the fields the pipeline touches
(`Region`, `Category`, `Order Date`, `Ship Date`, `Ship Mode`, `Sales`,
`Order ID`, `Customer ID`, `Postal Code`). -/
structure Record where
  region : String
  category : String
  orderDate : Nat
  shipDate : Nat
  shipMode : String
  sales : Rat
  orderId : String
  customerId : String
  postalCode : Int
deriving DecidableEq, Repr

/-- The per-record filter condition of `src/app.py` lines 86-91:
`Region ∈ region ∧ Category ∈ category ∧ date_range[0] ≤ Order Date ≤ date_range[1]`. -/
def matchesFilter (regions categories : List String) (dateStart dateEnd : Nat)
    (r : Record) : Prop :=
  r.region ∈ regions ∧ r.category ∈ categories ∧
    dateStart ≤ r.orderDate ∧ r.orderDate ≤ dateEnd

instance (regions categories : List String) (dateStart dateEnd : Nat) (r : Record) :
    Decidable (matchesFilter regions categories dateStart dateEnd r) := by
  unfold matchesFilter; infer_instance

/-- `filtered_df` (`src/app.py` line 86): boolean-mask selection of the rows
whose `Region` is in the multiselect `region`, whose `Category` is in the
multiselect `category`, and whose `Order Date` lies in the inclusive
interval `[date_range[0], date_range[1]]`. -/
def filtered_df (ds : List Record) (regions categories : List String)
    (dateStart dateEnd : Nat) : List Record :=
  ds.filter (fun r => decide (matchesFilter regions categories dateStart dateEnd r))

/-- `total_sales = filtered_df["Sales"].sum()` (line 96). -/
def total_sales (l : List Record) : Rat :=
  (l.map (fun r => r.sales)).sum

/-- `total_orders = filtered_df["Order ID"].nunique()` (line 97). -/
def total_orders (l : List Record) : Nat :=
  (l.map (fun r => r.orderId)).dedup.length

/-- `total_customers = filtered_df["Customer ID"].nunique()` (line 98). -/
def total_customers (l : List Record) : Nat :=
  (l.map (fun r => r.customerId)).dedup.length

/-- `avg_sales = filtered_df["Sales"].mean()` (line 99); pandas yields `NaN`
on an empty frame, embedded as `none`. -/
def avg_sales (l : List Record) : Option Rat :=
  if l.isEmpty then none else some (total_sales l / (l.length : Rat))

/-- Sum of `Sales` over the rows of `l` carrying the exact order date `d`:
one group of `groupby("Order Date")["Sales"].sum()`. -/
def sumSalesOn (d : Nat) (l : List Record) : Rat :=
  ((l.filter (fun r => decide (r.orderDate = d))).map (fun r => r.sales)).sum

/-- Insert a date into a strictly-sorted duplicate-free list of dates,
keeping it strictly sorted and duplicate-free. -/
def insertDate (d : Nat) : List Nat → List Nat
  | [] => [d]
  | x :: xs =>
    if d < x then d :: x :: xs
    else if d = x then x :: xs
    else x :: insertDate d xs

/-- The distinct dates of a list, in ascending order — the group keys of a
pandas `groupby`, which sorts keys ascending. -/
def sortedDates : List Nat → List Nat
  | [] => []
  | d :: rest => insertDate d (sortedDates rest)

/-- `sales_time = filtered_df.groupby("Order Date")["Sales"].sum().reset_index()`
(line 116): one row per distinct `Order Date`, ascending, with the summed
`Sales` of that date's group. -/
def sales_time (l : List Record) : List (Nat × Rat) :=
  (sortedDates (l.map (fun r => r.orderDate))).map (fun d => (d, sumSalesOn d l))

/-- Chart Table (2): the `(Category, Sales)` projection fed to `px.bar`
(lines 126-132). -/
def category_table (l : List Record) : List (String × Rat) :=
  l.map (fun r => (r.category, r.sales))

/-- Chart Table (3): the raw `Sales` column fed to `px.histogram`
(lines 141-146). -/
def hist_table (l : List Record) : List Rat :=
  l.map (fun r => r.sales)

/-- Chart Table (4): the `(Sales, Ship Mode, Region)` projection fed to
`px.scatter` (lines 150-156). -/
def scatter_table (l : List Record) : List (Rat × String × String) :=
  l.map (fun r => (r.sales, r.shipMode, r.region))

/-- All outputs of one run of the pipeline: the Filtered View, the four
KPIs and the four Chart Tables. -/
structure ViewOutput where
  filtered : List Record
  totalSales : Rat
  totalOrders : Nat
  totalCustomers : Nat
  avgSales : Option Rat
  salesTime : List (Nat × Rat)
  categoryTable : List (String × Rat)
  histTable : List Rat
  scatterTable : List (Rat × String × String)
deriving DecidableEq, Repr

/-- `computeView`: the whole filter-and-aggregate pipeline of
`src/app.py` lines 86-156 as one function of the dataset and the three
filter selections. -/
def computeView (ds : List Record) (regions categories : List String)
    (dateStart dateEnd : Nat) : ViewOutput :=
  let fd := filtered_df ds regions categories dateStart dateEnd
  { filtered := fd
    totalSales := total_sales fd
    totalOrders := total_orders fd
    totalCustomers := total_customers fd
    avgSales := avg_sales fd
    salesTime := sales_time fd
    categoryTable := category_table fd
    histTable := hist_table fd
    scatterTable := scatter_table fd }

/-- One run of the pipeline with the dataset threaded through as state:
every pandas operation in lines 86-156 reads `df`/`filtered_df` and builds
new frames, never writing back, so the state each step leaves behind is the
dataset it received. The second component is the dataset after the run. -/
def computeViewRun (ds : List Record) (regions categories : List String)
    (dateStart dateEnd : Nat) : ViewOutput × List Record :=
  (computeView ds regions categories dateStart dateEnd, ds)

/-- `df["Region"].unique()` (line 70): the distinct `Region` values. -/
def unique_regions (ds : List Record) : List String :=
  (ds.map (fun r => r.region)).dedup

/-- `df["Category"].unique()` (line 76): the distinct `Category` values. -/
def unique_categories (ds : List Record) : List String :=
  (ds.map (fun r => r.category)).dedup

/-- `df["Order Date"].min()` (line 82) for a non-empty dataset; `0` on the
empty dataset, where the source's widget default is never formed. -/
def min_order_date (ds : List Record) : Nat :=
  match ds.map (fun r => r.orderDate) with
  | [] => 0
  | x :: xs => xs.foldr min x

/-- `df["Order Date"].max()` (line 82) for a non-empty dataset. -/
def max_order_date (ds : List Record) : Nat :=
  match ds.map (fun r => r.orderDate) with
  | [] => 0
  | x :: xs => xs.foldr max x

/-! ### Helper lemmas about the filter -/

theorem mem_filtered_df {ds : List Record} {regions categories : List String}
    {dateStart dateEnd : Nat} {r : Record} :
    r ∈ filtered_df ds regions categories dateStart dateEnd ↔
      r ∈ ds ∧ matchesFilter regions categories dateStart dateEnd r := by
  simp [filtered_df, List.mem_filter]

/-! ### C1, C2, C3, C7, C8 -/

/-- C1: a record is in the Filtered View iff it is in the dataset, its
Region is in the selected regions, its Category is in the selected
categories, and its Order Date lies in the inclusive interval
`[dateStart, dateEnd]` — soundness and completeness of the filter. -/
theorem filtered_df_sound_complete (ds : List Record)
    (regions categories : List String) (dateStart dateEnd : Nat) (r : Record) :
    r ∈ filtered_df ds regions categories dateStart dateEnd ↔
      r ∈ ds ∧ r.region ∈ regions ∧ r.category ∈ categories ∧
        dateStart ≤ r.orderDate ∧ r.orderDate ≤ dateEnd := by
  simpa [matchesFilter] using
    (@mem_filtered_df ds regions categories dateStart dateEnd r)

/-- C2: the Filtered View is a sublist of the dataset — a subset of its
records kept in the same relative order. -/
theorem filtered_df_sublist (ds : List Record)
    (regions categories : List String) (dateStart dateEnd : Nat) :
    (filtered_df ds regions categories dateStart dateEnd).Sublist ds :=
  List.filter_sublist ds

/-- C3: an inverted date range (`dateEnd < dateStart`) yields an empty
Filtered View, for every dataset and every region/category selection. -/
theorem filtered_df_empty_of_inverted_range (ds : List Record)
    (regions categories : List String) (dateStart dateEnd : Nat)
    (h : dateEnd < dateStart) :
    filtered_df ds regions categories dateStart dateEnd = [] := by
  unfold filtered_df
  rw [List.filter_eq_nil_iff]
  intro r _ hr
  rw [decide_eq_true_iff] at hr
  exact absurd (le_trans hr.2.2.1 hr.2.2.2) (not_le.mpr h)

/-- Witness for C3 at a concrete dataset and inverted range. -/
theorem filtered_df_empty_of_inverted_range_witness :
    filtered_df
      [{ region := "East", category := "Food", orderDate := 5, shipDate := 6,
         shipMode := "Std", sales := 10, orderId := "O1", customerId := "C1",
         postalCode := 0 }]
      ["East"] ["Food"] 9 3 = [] :=
  filtered_df_empty_of_inverted_range _ _ _ _ _ (by decide)

/-- C7: the total-sales KPI equals the sum of the `Sales` projection that
feeds the histogram Chart Table, over the same Filtered View. -/
theorem total_sales_eq_hist_sum (ds : List Record)
    (regions categories : List String) (dateStart dateEnd : Nat) :
    total_sales (filtered_df ds regions categories dateStart dateEnd) =
      (hist_table (filtered_df ds regions categories dateStart dateEnd)).sum := rfl

/-- C8: the pipeline is pure — the run returns the dataset unchanged as its
final state, and two runs on the same inputs produce identical outputs. -/
theorem computeViewRun_pure (ds : List Record)
    (regions categories : List String) (dateStart dateEnd : Nat) :
    (computeViewRun ds regions categories dateStart dateEnd).2 = ds ∧
      computeViewRun ds regions categories dateStart dateEnd =
        computeViewRun ds regions categories dateStart dateEnd :=
  ⟨rfl, rfl⟩

/-! ### C4: empty Filtered View never faults -/

/-- C4: whenever the Filtered View is empty, every derived output is its
benign default — total sales `0`, order and customer counts `0`, all four
Chart Tables empty, and the average sale the not-a-number sentinel. -/
theorem empty_view_defaults (ds : List Record)
    (regions categories : List String) (dateStart dateEnd : Nat)
    (h : filtered_df ds regions categories dateStart dateEnd = []) :
    total_sales (filtered_df ds regions categories dateStart dateEnd) = 0 ∧
      total_orders (filtered_df ds regions categories dateStart dateEnd) = 0 ∧
      total_customers (filtered_df ds regions categories dateStart dateEnd) = 0 ∧
      sales_time (filtered_df ds regions categories dateStart dateEnd) = [] ∧
      category_table (filtered_df ds regions categories dateStart dateEnd) = [] ∧
      hist_table (filtered_df ds regions categories dateStart dateEnd) = [] ∧
      scatter_table (filtered_df ds regions categories dateStart dateEnd) = [] ∧
      avg_sales (filtered_df ds regions categories dateStart dateEnd) = none := by
  rw [h]
  exact ⟨rfl, rfl, rfl, rfl, rfl, rfl, rfl, rfl⟩

/-- Witness for C4: a one-record dataset with an empty region selection has
an empty Filtered View, and the theorem applies to it. -/
theorem empty_view_defaults_witness :
    filtered_df
        [{ region := "East", category := "Food", orderDate := 5, shipDate := 6,
           shipMode := "Std", sales := 10, orderId := "O1", customerId := "C1",
           postalCode := 0 }]
        [] ["Food"] 1 9 = [] ∧
      avg_sales (filtered_df
        [{ region := "East", category := "Food", orderDate := 5, shipDate := 6,
           shipMode := "Std", sales := 10, orderId := "O1", customerId := "C1",
           postalCode := 0 }]
        [] ["Food"] 1 9) = none :=
  ⟨by decide,
    (empty_view_defaults _ [] ["Food"] 1 9 (by decide)).2.2.2.2.2.2.2⟩

/-! ### C6: distinct-count KPIs -/

/-- C6: on every Filtered View the order-count KPI is the number of
distinct `Order ID` values, the customer-count KPI is the number of
distinct `Customer ID` values, and each is at most the row count. -/
theorem distinct_count_kpis (ds : List Record)
    (regions categories : List String) (dateStart dateEnd : Nat) :
    total_orders (filtered_df ds regions categories dateStart dateEnd) =
        ((filtered_df ds regions categories dateStart dateEnd).map
          (fun r => r.orderId)).toFinset.card ∧
      total_customers (filtered_df ds regions categories dateStart dateEnd) =
        ((filtered_df ds regions categories dateStart dateEnd).map
          (fun r => r.customerId)).toFinset.card ∧
      total_orders (filtered_df ds regions categories dateStart dateEnd) ≤
        (filtered_df ds regions categories dateStart dateEnd).length ∧
      total_customers (filtered_df ds regions categories dateStart dateEnd) ≤
        (filtered_df ds regions categories dateStart dateEnd).length := by
  refine ⟨(List.card_toFinset _).symm, (List.card_toFinset _).symm, ?_, ?_⟩
  · calc total_orders (filtered_df ds regions categories dateStart dateEnd)
        ≤ ((filtered_df ds regions categories dateStart dateEnd).map
            (fun r => r.orderId)).length :=
          (List.dedup_sublist _).length_le
      _ = (filtered_df ds regions categories dateStart dateEnd).length :=
          List.length_map _ _
  · calc total_customers (filtered_df ds regions categories dateStart dateEnd)
        ≤ ((filtered_df ds regions categories dateStart dateEnd).map
            (fun r => r.customerId)).length :=
          (List.dedup_sublist _).length_le
      _ = (filtered_df ds regions categories dateStart dateEnd).length :=
          List.length_map _ _

/-! ### Helper lemmas for the grouped sales-over-time table -/

theorem mem_insertDate {a d : Nat} {l : List Nat} :
    a ∈ insertDate d l ↔ a = d ∨ a ∈ l := by
  induction l with
  | nil => simp [insertDate]
  | cons x xs ih =>
    unfold insertDate
    by_cases h1 : d < x
    · simp [h1]
    · by_cases h2 : d = x
      · subst h2
        simp [h1]
      · simp only [if_neg h1, if_neg h2, List.mem_cons, ih]
        tauto

theorem sorted_insertDate (d : Nat) {l : List Nat}
    (h : List.Sorted (· < ·) l) : List.Sorted (· < ·) (insertDate d l) := by
  induction l with
  | nil => simp [insertDate]
  | cons x xs ih =>
    rw [List.sorted_cons] at h
    unfold insertDate
    by_cases h1 : d < x
    · rw [if_pos h1, List.sorted_cons]
      refine ⟨?_, List.sorted_cons.mpr h⟩
      intro b hb
      rcases List.mem_cons.mp hb with hbx | hbxs
      · exact hbx ▸ h1
      · exact lt_trans h1 (h.1 b hbxs)
    · by_cases h2 : d = x
      · rw [if_neg h1, if_pos h2]
        exact List.sorted_cons.mpr h
      · have hx : x < d := by omega
        simp only [if_neg h1, if_neg h2]
        rw [List.sorted_cons]
        refine ⟨?_, ih h.2⟩
        intro b hb
        rcases mem_insertDate.mp hb with hbd | hbxs
        · exact hbd ▸ hx
        · exact h.1 b hbxs

theorem mem_sortedDates {a : Nat} {l : List Nat} :
    a ∈ sortedDates l ↔ a ∈ l := by
  induction l with
  | nil => simp [sortedDates]
  | cons x xs ih => simp [sortedDates, mem_insertDate, ih]

theorem sorted_sortedDates (l : List Nat) :
    List.Sorted (· < ·) (sortedDates l) := by
  induction l with
  | nil => simp [sortedDates]
  | cons x xs ih => exact sorted_insertDate x ih

theorem nodup_sortedDates (l : List Nat) : (sortedDates l).Nodup :=
  (sorted_sortedDates l).imp ne_of_lt

theorem sum_map_add (f g : Nat → Rat) (D : List Nat) :
    (D.map (fun d => f d + g d)).sum = (D.map f).sum + (D.map g).sum := by
  induction D with
  | nil => simp
  | cons x xs ih =>
    simp only [List.map_cons, List.sum_cons, ih]
    ring

theorem sum_indicator_zero {a : Nat} {D : List Nat} (s : Rat) (h : a ∉ D) :
    (D.map (fun d => if a = d then s else 0)).sum = 0 := by
  induction D with
  | nil => simp
  | cons x xs ih =>
    simp only [List.mem_cons, not_or] at h
    simp only [List.map_cons, List.sum_cons]
    rw [if_neg h.1, ih h.2]
    ring

theorem sum_indicator {a : Nat} {D : List Nat} (s : Rat) (hD : D.Nodup)
    (h : a ∈ D) : (D.map (fun d => if a = d then s else 0)).sum = s := by
  induction D with
  | nil => simp at h
  | cons x xs ih =>
    rw [List.nodup_cons] at hD
    simp only [List.map_cons, List.sum_cons]
    rcases List.mem_cons.mp h with hax | haxs
    · subst hax
      rw [if_pos rfl, sum_indicator_zero s hD.1]
      ring
    · have hax : a ≠ x := fun hax => hD.1 (hax ▸ haxs)
      rw [if_neg hax, ih hD.2 haxs]
      ring

theorem sumSalesOn_cons (d : Nat) (r : Record) (t : List Record) :
    sumSalesOn d (r :: t) =
      (if r.orderDate = d then r.sales else 0) + sumSalesOn d t := by
  unfold sumSalesOn
  by_cases h : r.orderDate = d
  · simp [List.filter_cons, h]
  · simp [List.filter_cons, h]

theorem sum_fiber (D : List Nat) (hD : D.Nodup) (l : List Record)
    (hl : ∀ r ∈ l, r.orderDate ∈ D) :
    (D.map (fun d => sumSalesOn d l)).sum = total_sales l := by
  induction l with
  | nil =>
    simp [sumSalesOn, total_sales]
  | cons r t ih =>
    have hmap : D.map (fun d => sumSalesOn d (r :: t)) =
        D.map (fun d => (if r.orderDate = d then r.sales else 0) + sumSalesOn d t) :=
      List.map_congr_left (fun d _ => sumSalesOn_cons d r t)
    rw [hmap, sum_map_add,
      sum_indicator r.sales hD (hl r (List.mem_cons_self r t)),
      ih (fun x hx => hl x (List.mem_cons_of_mem r hx))]
    simp [total_sales]

theorem sales_time_fst (l : List Record) :
    (sales_time l).map Prod.fst = sortedDates (l.map (fun r => r.orderDate)) := by
  unfold sales_time
  rw [List.map_map,
    show (Prod.fst ∘ fun d => (d, sumSalesOn d l)) = id from rfl, List.map_id]

theorem sales_time_snd_sum (l : List Record) :
    ((sales_time l).map Prod.snd).sum = total_sales l := by
  have h : (sales_time l).map Prod.snd =
      (sortedDates (l.map (fun r => r.orderDate))).map (fun d => sumSalesOn d l) := by
    unfold sales_time
    rw [List.map_map,
      show (Prod.snd ∘ fun d => (d, sumSalesOn d l)) = (fun d => sumSalesOn d l)
        from rfl]
  rw [h]
  exact sum_fiber _ (nodup_sortedDates _) l
    (fun r hr => mem_sortedDates.mpr (List.mem_map_of_mem _ hr))

/-- C5: the sales-over-time Chart Table has strictly ascending dates (hence
no duplicate date entry), each row's value is the sum of `Sales` over the
Filtered View's records with that `Order Date`, and its rows sum to the
total-sales KPI. -/
theorem sales_time_correct (ds : List Record)
    (regions categories : List String) (dateStart dateEnd : Nat) :
    List.Sorted (· < ·)
        ((sales_time (filtered_df ds regions categories dateStart dateEnd)).map
          Prod.fst) ∧
      (∀ p ∈ sales_time (filtered_df ds regions categories dateStart dateEnd),
        p.2 = sumSalesOn p.1 (filtered_df ds regions categories dateStart dateEnd)) ∧
      ((sales_time (filtered_df ds regions categories dateStart dateEnd)).map
          Prod.snd).sum =
        total_sales (filtered_df ds regions categories dateStart dateEnd) := by
  refine ⟨?_, ?_, sales_time_snd_sum _⟩
  · rw [sales_time_fst]
    exact sorted_sortedDates _
  · intro p hp
    rcases List.mem_map.mp hp with ⟨d, _, rfl⟩
    rfl

/-! ### C9: the filter is monotone in its selection -/

/-- C9: enlarging the region and category selections and widening the date
interval can only keep more records — the narrower Filtered View is a
sublist (order-preserving subset) of the wider one. -/
theorem filtered_df_monotone (ds : List Record)
    (regions regions' categories categories' : List String)
    (dateStart dateStart' dateEnd dateEnd' : Nat)
    (hr : regions ⊆ regions') (hc : categories ⊆ categories')
    (hs : dateStart' ≤ dateStart) (he : dateEnd ≤ dateEnd') :
    (filtered_df ds regions categories dateStart dateEnd).Sublist
      (filtered_df ds regions' categories' dateStart' dateEnd') := by
  apply List.monotone_filter_right
  intro a ha
  rw [decide_eq_true_iff] at ha ⊢
  exact ⟨hr ha.1, hc ha.2.1, le_trans hs ha.2.2.1, le_trans ha.2.2.2 he⟩

/-- Witness for C9 at concrete selections. -/
theorem filtered_df_monotone_witness :
    (["East"] ⊆ ["East", "West"] ∧ (["Food"] : List String) ⊆ ["Food"] ∧
        3 ≤ 4 ∧ 8 ≤ 9) ∧
      (filtered_df
          [{ region := "East", category := "Food", orderDate := 5, shipDate := 6,
             shipMode := "Std", sales := 10, orderId := "O1", customerId := "C1",
             postalCode := 0 },
           { region := "West", category := "Food", orderDate := 7, shipDate := 8,
             shipMode := "Std", sales := 20, orderId := "O2", customerId := "C2",
             postalCode := 0 }]
          ["East"] ["Food"] 4 8).Sublist
        (filtered_df
          [{ region := "East", category := "Food", orderDate := 5, shipDate := 6,
             shipMode := "Std", sales := 10, orderId := "O1", customerId := "C1",
             postalCode := 0 },
           { region := "West", category := "Food", orderDate := 7, shipDate := 8,
             shipMode := "Std", sales := 20, orderId := "O2", customerId := "C2",
             postalCode := 0 }]
          ["East", "West"] ["Food"] 3 9) :=
  ⟨⟨by decide, by decide, by decide, by decide⟩,
    filtered_df_monotone _ _ _ _ _ _ _ _ _
      (by decide) (by decide) (by decide) (by decide)⟩

/-! ### C10: the default widget state filters nothing away -/

theorem foldr_min_le (x : Nat) (xs : List Nat) :
    ∀ y ∈ x :: xs, xs.foldr min x ≤ y := by
  induction xs generalizing x with
  | nil =>
    intro y hy
    simp at hy
    simp [hy]
  | cons a t ih =>
    intro y hy
    simp only [List.foldr_cons]
    rcases List.mem_cons.mp hy with rfl | hy2
    · exact le_trans (min_le_right _ _) (ih y y (List.mem_cons_self _ _))
    · rcases List.mem_cons.mp hy2 with rfl | hyt
      · exact min_le_left _ _
      · exact le_trans (min_le_right _ _) (ih x y (List.mem_cons_of_mem _ hyt))

theorem le_foldr_max (x : Nat) (xs : List Nat) :
    ∀ y ∈ x :: xs, y ≤ xs.foldr max x := by
  induction xs generalizing x with
  | nil =>
    intro y hy
    simp at hy
    simp [hy]
  | cons a t ih =>
    intro y hy
    simp only [List.foldr_cons]
    rcases List.mem_cons.mp hy with rfl | hy2
    · exact le_trans (ih y y (List.mem_cons_self _ _)) (le_max_right _ _)
    · rcases List.mem_cons.mp hy2 with rfl | hyt
      · exact le_max_left _ _
      · exact le_trans (ih x y (List.mem_cons_of_mem _ hyt)) (le_max_right _ _)

/-- C10: with the app's default widget state — all distinct regions, all
distinct categories, and the dataset's minimum and maximum order dates —
the Filtered View of a non-empty dataset is the whole dataset. -/
theorem default_filter_identity (ds : List Record) (h : ds ≠ []) :
    filtered_df ds (unique_regions ds) (unique_categories ds)
      (min_order_date ds) (max_order_date ds) = ds := by
  unfold filtered_df
  rw [List.filter_eq_self]
  intro r hr
  rw [decide_eq_true_iff]
  refine ⟨List.mem_dedup.mpr (List.mem_map_of_mem _ hr),
    List.mem_dedup.mpr (List.mem_map_of_mem _ hr), ?_, ?_⟩
  · unfold min_order_date
    rcases hm : ds.map (fun r => r.orderDate) with _ | ⟨x, xs⟩
    · exact absurd (hm ▸ List.mem_map_of_mem _ hr) (List.not_mem_nil _)
    · rw [hm]
      exact foldr_min_le x xs r.orderDate (hm ▸ List.mem_map_of_mem _ hr)
  · unfold max_order_date
    rcases hm : ds.map (fun r => r.orderDate) with _ | ⟨x, xs⟩
    · exact absurd (hm ▸ List.mem_map_of_mem _ hr) (List.not_mem_nil _)
    · rw [hm]
      exact le_foldr_max x xs r.orderDate (hm ▸ List.mem_map_of_mem _ hr)

/-- Witness for C10 at a concrete two-record dataset. -/
theorem default_filter_identity_witness :
    ([{ region := "East", category := "Food", orderDate := 5, shipDate := 6,
        shipMode := "Std", sales := 10, orderId := "O1", customerId := "C1",
        postalCode := 0 },
      { region := "West", category := "Toys", orderDate := 7, shipDate := 8,
        shipMode := "Air", sales := 20, orderId := "O2", customerId := "C2",
        postalCode := 0 }] : List Record) ≠ [] ∧
      filtered_df
          [{ region := "East", category := "Food", orderDate := 5, shipDate := 6,
             shipMode := "Std", sales := 10, orderId := "O1", customerId := "C1",
             postalCode := 0 },
           { region := "West", category := "Toys", orderDate := 7, shipDate := 8,
             shipMode := "Air", sales := 20, orderId := "O2", customerId := "C2",
             postalCode := 0 }]
          (unique_regions
            [{ region := "East", category := "Food", orderDate := 5, shipDate := 6,
               shipMode := "Std", sales := 10, orderId := "O1", customerId := "C1",
               postalCode := 0 },
             { region := "West", category := "Toys", orderDate := 7, shipDate := 8,
               shipMode := "Air", sales := 20, orderId := "O2", customerId := "C2",
               postalCode := 0 }])
          (unique_categories
            [{ region := "East", category := "Food", orderDate := 5, shipDate := 6,
               shipMode := "Std", sales := 10, orderId := "O1", customerId := "C1",
               postalCode := 0 },
             { region := "West", category := "Toys", orderDate := 7, shipDate := 8,
               shipMode := "Air", sales := 20, orderId := "O2", customerId := "C2",
               postalCode := 0 }])
          (min_order_date
            [{ region := "East", category := "Food", orderDate := 5, shipDate := 6,
               shipMode := "Std", sales := 10, orderId := "O1", customerId := "C1",
               postalCode := 0 },
             { region := "West", category := "Toys", orderDate := 7, shipDate := 8,
               shipMode := "Air", sales := 20, orderId := "O2", customerId := "C2",
               postalCode := 0 }])
          (max_order_date
            [{ region := "East", category := "Food", orderDate := 5, shipDate := 6,
               shipMode := "Std", sales := 10, orderId := "O1", customerId := "C1",
               postalCode := 0 },
             { region := "West", category := "Toys", orderDate := 7, shipDate := 8,
               shipMode := "Air", sales := 20, orderId := "O2", customerId := "C2",
               postalCode := 0 }]) =
        [{ region := "East", category := "Food", orderDate := 5, shipDate := 6,
           shipMode := "Std", sales := 10, orderId := "O1", customerId := "C1",
           postalCode := 0 },
         { region := "West", category := "Toys", orderDate := 7, shipDate := 8,
           shipMode := "Air", sales := 20, orderId := "O2", customerId := "C2",
           postalCode := 0 }] :=
  ⟨by decide, default_filter_identity _ (by decide)⟩
